import Mathlib

/-!
Verification of the Blink chrome extension (background tracker, threshold
scheduler, addDomainTime persistence handler, content-script activity monitor
and break lifecycle) against its natural-language specification.

Sources embedded below:
  * `src/background.js`   — classifier, tracker streak update, periodic checks,
                            message handlers (`addDomainTime`, `getDomainTime`,
                            `resetBreakShown`).
  * `src/unnamed/part_000` (content script) — `loadDomainInfo` reset-gap policy,
                            `startBreak` / `removeExistingBanner` break lifecycle.
-/

namespace Blink

/-! ### String helpers (JavaScript semantics) -/

/-- Character-wise: does the first list start with the second? -/
def listStarts : List Char → List Char → Bool
  | _, [] => true
  | [], _ :: _ => false
  | c :: cs, d :: ds => c == d && listStarts cs ds

/-- Does `p` occur as a contiguous run somewhere inside `l`? -/
def subOccurs (p : List Char) : List Char → Bool
  | [] => listStarts [] p
  | c :: cs => listStarts (c :: cs) p || subOccurs p cs

/-- JavaScript `s.includes(p)`: `p` occurs as a substring of `s`. -/
def jsIncludes (s p : String) : Bool := subOccurs p.data s.data

/-- JavaScript `a || b` on an optional string field: `null` and the empty
string are falsy, every other string is truthy. -/
def jsOrStr (a : Option String) (b : String) : Option String :=
  match a with
  | none => some b
  | some s => if s = "" then some b else some s

/-! ### URL parsing (browser API collaborator) -/

/-- Modelled from the spec: `getCategoryForUrl` calls the browser URL
constructor (`new URL(url).hostname`, `.pathname`), a platform API that is not
repository code.  Per the spec, classification extracts hostname and path from
the url and fails soft on malformed input.  We model a URL as
`scheme://host/path`: parsing succeeds when the url starts with `http://` or
`https://` and has a nonempty hostname, the pathname defaulting to `/` exactly
as the URL API does; any other shape makes the constructor throw, modelled as
`none`. -/
def parseHostPath (url : String) : Option (String × String) :=
  let cs := url.data
  let rest? : Option (List Char) :=
    if listStarts cs "https://".data then some (cs.drop 8)
    else if listStarts cs "http://".data then some (cs.drop 7)
    else none
  match rest? with
  | none => none
  | some rest =>
    let host := rest.takeWhile (fun c => c != '/')
    let path := rest.dropWhile (fun c => c != '/')
    if host = [] then none
    else some (String.mk host, String.mk (if path = [] then ['/'] else path))

/-! ### Domain classifier — `getCategoryForUrl`, src/background.js lines 36-50 -/

/-- Inner pattern loop of `getCategoryForUrl` (src/background.js lines 41-44):
`for (const p of patterns) { if (!p) continue; if (host.includes(p) ||
url.includes(p)) return cat; }` — true when some non-empty pattern matches. -/
def matchPatterns (host url : String) : List String → Bool
  | [] => false
  | p :: ps =>
    if p = "" then matchPatterns host url ps
    else (jsIncludes host p || jsIncludes url p) || matchPatterns host url ps

/-- Outer category loop of `getCategoryForUrl` (src/background.js lines 40-45):
first category (in the map's iteration order) one of whose patterns matches. -/
def firstCategory (host url : String) : List (String × List String) → Option String
  | [] => none
  | (cat, ps) :: rest =>
    if matchPatterns host url ps then some cat else firstCategory host url rest

/-- `getCategoryForUrl(url, map)`, src/background.js lines 36-50: build
`host = hostname + pathname`, scan the map in order, return the first match,
and return "other" when the URL fails to parse or nothing matches. -/
def getCategoryForUrl (url : String) (map : List (String × List String)) : String :=
  match parseHostPath url with
  | none => "other"
  | some hp =>
    let host := hp.1 ++ hp.2
    (firstCategory host url map).getD "other"

/-- Scan of flattened (category, pattern) pairs as claim C4 words it: first
pair whose pattern occurs as a substring of hostname+path or of the raw URL
wins (no condition on the pattern being non-empty). -/
def scanPairsAll (host url : String) : List (String × String) → Option String
  | [] => none
  | cq :: rest =>
    if jsIncludes host cq.2 || jsIncludes url cq.2 then some cq.1
    else scanPairsAll host url rest

/-- Scan of flattened (category, pattern) pairs, restricted to non-empty
patterns (the amended form of claim C4). -/
def scanPairs (host url : String) : List (String × String) → Option String
  | [] => none
  | cq :: rest =>
    if cq.2 ≠ "" ∧ (jsIncludes host cq.2 || jsIncludes url cq.2) then some cq.1
    else scanPairs host url rest

/-- Claim C4's wording of the classifier: flatten the map to
(category, pattern) pairs in iteration order and return the category of the
first pattern that occurs as a substring of hostname+path or of the raw URL
(with no skipping of empty patterns); "other" when none matches. -/
def claimClassify (url : String) (map : List (String × List String)) : String :=
  match parseHostPath url with
  | none => "other"
  | some hp =>
    let host := hp.1 ++ hp.2
    (scanPairsAll host url (map.flatMap (fun cp => cp.2.map (fun q => (cp.1, q))))).getD "other"

/-- The classifier as claim C4 holds after amendment: same first-match scan,
but only non-empty patterns participate (the source skips falsy patterns). -/
def claimClassifyNonEmpty (url : String) (map : List (String × List String)) : String :=
  match parseHostPath url with
  | none => "other"
  | some hp =>
    let host := hp.1 ++ hp.2
    (scanPairs host url (map.flatMap (fun cp => cp.2.map (fun q => (cp.1, q))))).getD "other"

/-- `DEFAULT_CATEGORY_MAP`, src/background.js lines 4-9. -/
def defaultCategoryMap : List (String × List String) :=
  [("social", ["youtube.com", "instagram.com", "twitter.com", "tiktok.com", "facebook.com",
      "reddit.com"]),
   ("games", ["roblox.com", "steampowered.com", "epicgames.com", "miniclip.com"]),
   ("school", ["classroom.google.com", "canvas.instructure.com", "google.com/drive",
      "docs.google.com"]),
   ("productive", ["notion.so", "github.com", "stackoverflow.com", "drive.google.com",
      "docs.google.com"])]

/-- Inner step: scanning the (category, pattern) pairs contributed by one
category followed by a tail behaves like the source's inner pattern loop. -/
theorem scanPairs_append (host url cat : String) (ps : List String)
    (tail : List (String × String)) :
    scanPairs host url ((ps.map fun q => (cat, q)) ++ tail) =
      if matchPatterns host url ps then some cat else scanPairs host url tail := by
  induction ps with
  | nil => simp [matchPatterns]
  | cons q qs ih =>
    by_cases hq : q = ""
    · simp [scanPairs, matchPatterns, hq, ih]
    · by_cases hm : (jsIncludes host q || jsIncludes url q) = true
      · simp [scanPairs, matchPatterns, hq, hm]
      · simp [scanPairs, matchPatterns, hq, hm, ih]

/-- The source's nested category/pattern loops equal the flattened
first-nonempty-matching-pattern scan of the amended claim C4. -/
theorem firstCategory_eq_scanPairs (host url : String)
    (map : List (String × List String)) :
    firstCategory host url map =
      scanPairs host url (map.flatMap fun cp => cp.2.map fun q => (cp.1, q)) := by
  induction map with
  | nil => simp [firstCategory, scanPairs]
  | cons cp rest ih =>
    obtain ⟨cat, ps⟩ := cp
    rw [List.flatMap_cons, scanPairs_append]
    by_cases h : matchPatterns host url ps
    · simp [firstCategory, h]
    · simp [firstCategory, h, ih]

/-- Pointwise equality of the classifier with the amended claim's wording. -/
theorem getCategoryForUrl_eq_claimNonEmpty (url : String)
    (map : List (String × List String)) :
    getCategoryForUrl url map = claimClassifyNonEmpty url map := by
  unfold getCategoryForUrl claimClassifyNonEmpty
  cases parseHostPath url with
  | none => rfl
  | some hp2 =>
    exact congrArg (fun o => Option.getD o "other")
      (firstCategory_eq_scanPairs (hp2.1 ++ hp2.2) url map)

/-- C4 counterexample: the claim as stated puts no non-emptiness condition on
patterns — the empty pattern occurs as a substring of every hostname+path and
of every raw URL, so for the map mapping category "A" to the single pattern ""
the claim predicts "A", but the source skips falsy patterns
(`if (!p) continue;`, src/background.js line 42) and returns "other". -/
theorem c4_counterexample :
    getCategoryForUrl "https://x.com" [("A", [""])] = "other" ∧
      claimClassify "https://x.com" [("A", [""])] = "A" ∧
      jsIncludes "x.com/" "" = true ∧ jsIncludes "https://x.com" "" = true := by
  refine ⟨by decide, by decide, by decide, by decide⟩

/-- C4 (amended): classification is deterministic (a pure function of the URL
and map) and returns the category of the first **non-empty** pattern, in the
map's iteration order, that occurs as a substring of hostname+path or of the
raw URL; empty patterns are skipped; if no non-empty pattern matches, the
result is "other".  In particular the map A ↦ [x.com], B ↦ [x.com/y] on URL
https://x.com/y yields "A", not "B". -/
theorem c4_classifier_first_match :
    (∀ url map, getCategoryForUrl url map = claimClassifyNonEmpty url map) ∧
      getCategoryForUrl "https://x.com/y" [("A", ["x.com"]), ("B", ["x.com/y"])] = "A" ∧
      getCategoryForUrl "https://zzz.example/w" [("A", ["x.com"]), ("B", ["x.com/y"])] =
        "other" :=
  ⟨getCategoryForUrl_eq_claimNonEmpty, by decide, by decide⟩

/-- C8: classification fails soft — whenever the URL constructor rejects the
input (a malformed or unparseable URL), `getCategoryForUrl` yields "other"
for every category map; being a total Lean function, it never throws. -/
theorem c8_malformed_url_other (url : String) (map : List (String × List String))
    (h : parseHostPath url = none) : getCategoryForUrl url map = "other" := by
  unfold getCategoryForUrl
  rw [h]

/-- C8 witness: the schemeless string "notaurl" is rejected by the URL parser
and classifies as "other" under the default category map. -/
theorem c8_malformed_url_other_witness :
    parseHostPath "notaurl" = none ∧
      getCategoryForUrl "notaurl" defaultCategoryMap = "other" :=
  ⟨by decide, c8_malformed_url_other "notaurl" defaultCategoryMap (by decide)⟩

/-! ### Persisted domain stats (`domainStats` key) -/

/-- One `DomainStatsEntry` as stored under the `domainStats` key:
`{time, category, lastActive}` (src/background.js line 232). -/
structure DomainEntry where
  time : Int
  category : Option String
  lastActive : Int
deriving DecidableEq

/-- JavaScript object read `map[domain]`: first binding for the key. -/
def mapGet : List (String × DomainEntry) → String → Option DomainEntry
  | [], _ => none
  | a :: rest, k => if a.1 == k then some a.2 else mapGet rest k

/-- JavaScript object write `map[domain] = entry`: an existing key is updated
in place (keeping its position), a new key is appended. -/
def mapSet : List (String × DomainEntry) → String → DomainEntry → List (String × DomainEntry)
  | [], k, v => [(k, v)]
  | a :: rest, k, v => if a.1 == k then (k, v) :: rest else a :: mapSet rest k v

/-- JavaScript `s || null` on an optional string: `null` and `""` give null. -/
def jsStrOrNull (a : Option String) : Option String :=
  match a with
  | none => none
  | some s => if s = "" then none else some s

theorem mapGet_mapSet_self (m : List (String × DomainEntry)) (k : String) (v : DomainEntry) :
    mapGet (mapSet m k v) k = some v := by
  induction m with
  | nil => simp [mapSet, mapGet]
  | cons a rest ih =>
    by_cases h : a.1 == k
    · simp [mapSet, mapGet, h]
    · simp [mapSet, mapGet, h, ih]

/-- Acknowledgment and resulting `domainStats` map of `addDomainTime`. -/
structure AddResult where
  ok : Bool
  store : List (String × DomainEntry)
deriving DecidableEq

/-- The `addDomainTime` message handler, src/background.js lines 223-248.
`domain` is `msg.domain` (`none` = absent), `deltaMs` is `msg.deltaMs` after
numeric coercion (`none` models a missing or non-numeric field, which
`Number(msg.deltaMs) || 0` turns into 0), `now` is `Date.now()` and `catMap`
the category map from prefs.  The handler rejects a falsy domain or a
non-positive delta without touching the store; otherwise it reads the stored
map, bumps `time`, stamps `lastActive`, keeps the category unless it is falsy
(`entry.category = entry.category || cat`) and writes the map back. -/
def addDomainTime (store : List (String × DomainEntry))
    (catMap : List (String × List String)) (now : Int)
    (domain : Option String) (deltaMs : Option Int) : AddResult :=
  let delta := deltaMs.getD 0
  match domain with
  | none => ⟨false, store⟩
  | some d =>
    if d = "" ∨ delta ≤ 0 then ⟨false, store⟩
    else
      let entry := (mapGet store d).getD ⟨0, none, 0⟩
      let cat := getCategoryForUrl ("https://" ++ d) catMap
      let entry2 : DomainEntry := ⟨entry.time + delta, jsOrStr entry.category cat, now⟩
      ⟨true, mapSet store d entry2⟩

/-- Response shape of the `getDomainTime` handler. -/
structure DomainTimeResp where
  time : Int
  category : Option String
  lastActive : Int
deriving DecidableEq

/-- The `getDomainTime` message handler, src/background.js lines 251-259: look
the domain up (defaulting to time 0, category null, lastActive 0) and answer
`{time: entry.time || 0, category: entry.category || null, lastActive:
entry.lastActive || 0}`.  The handler performs no write, so it returns the
store it was given unchanged. -/
def getDomainTime (store : List (String × DomainEntry)) (domain : String) :
    DomainTimeResp × List (String × DomainEntry) :=
  let entry := (mapGet store domain).getD ⟨0, none, 0⟩
  (⟨entry.time, jsStrOrNull entry.category, entry.lastActive⟩, store)

/-! ### Content-script reset-gap policy (`loadDomainInfo`) -/

/-- `RESET_GAP_MS`, content script src/unnamed/part_000 line 175. -/
def RESET_GAP_MS : Int := 30 * 60 * 1000

/-- The staleness branch of `loadDomainInfo`, content script lines 190-199:
`const last = resp.lastActive || 0; if (Date.now() - last > RESET_GAP_MS)
baseDomainTimeMs = 0; else baseDomainTimeMs = resp.time || 0;`. -/
def loadDomainInfoBase (now : Int) (resp : DomainTimeResp) : Int :=
  if now - resp.lastActive > RESET_GAP_MS then 0 else resp.time

/-- C5: at page load the content script fetches `{time, lastActive}` for the
current domain via `getDomainTime` (which leaves the persisted store
untouched); if `now - lastActive` exceeds the 30-minute reset gap the
displayed base time is 0, otherwise it is the persisted time; in particular a
`lastActive` 31 minutes in the past yields 0 and one 29 minutes in the past
preserves the persisted value. -/
theorem c5_reset_gap (store : List (String × DomainEntry)) (domain : String) (now : Int) :
    (getDomainTime store domain).2 = store ∧
      (now - (getDomainTime store domain).1.lastActive > RESET_GAP_MS →
        loadDomainInfoBase now (getDomainTime store domain).1 = 0) ∧
      (now - (getDomainTime store domain).1.lastActive ≤ RESET_GAP_MS →
        loadDomainInfoBase now (getDomainTime store domain).1 =
          (getDomainTime store domain).1.time) ∧
      (∀ t : Int, loadDomainInfoBase now ⟨t, none, now - 31 * 60 * 1000⟩ = 0) ∧
      (∀ t : Int, loadDomainInfoBase now ⟨t, none, now - 29 * 60 * 1000⟩ = t) := by
  refine ⟨rfl, fun h => ?_, fun h => ?_, fun t => ?_, fun t => ?_⟩
  · rw [loadDomainInfoBase, if_pos h]
  · rw [loadDomainInfoBase, if_neg (not_lt.mpr h)]
  · show (if now - (now - 31 * 60 * 1000) > RESET_GAP_MS then (0 : Int) else t) = 0
    rw [if_pos (by unfold RESET_GAP_MS; omega)]
  · show (if now - (now - 29 * 60 * 1000) > RESET_GAP_MS then (0 : Int) else t) = t
    rw [if_neg (by unfold RESET_GAP_MS; omega)]

/-- C5 witness: concrete stores and clock values exercising both branches of
the reset-gap policy through the theorem. -/
theorem c5_reset_gap_witness :
    loadDomainInfoBase 1000000000 (getDomainTime [("x.com", ⟨5000, none, 0⟩)] "x.com").1 = 0 ∧
      loadDomainInfoBase 1900000
        (getDomainTime [("x.com", ⟨5000, none, 100000⟩)] "x.com").1 = 5000 :=
  ⟨(c5_reset_gap [("x.com", ⟨5000, none, 0⟩)] "x.com" 1000000000).2.1 (by decide),
    (c5_reset_gap [("x.com", ⟨5000, none, 100000⟩)] "x.com" 1900000).2.2.1 (by decide)⟩

/-- C7: `addDomainTime` with a missing/empty domain or a non-positive
(coerced) delta answers `{ok: false}` and leaves the persisted map completely
unchanged; every valid request answers `{ok: true}`. -/
theorem c7_addDomainTime_validation (store : List (String × DomainEntry))
    (catMap : List (String × List String)) (now : Int)
    (domain : Option String) (deltaMs : Option Int) :
    ((domain = none ∨ domain = some "" ∨ deltaMs.getD 0 ≤ 0) →
      addDomainTime store catMap now domain deltaMs = ⟨false, store⟩) ∧
    (∀ d, domain = some d → d ≠ "" → 0 < deltaMs.getD 0 →
      (addDomainTime store catMap now domain deltaMs).ok = true) := by
  constructor
  · rintro (h | h | h)
    · subst h; rfl
    · subst h; simp [addDomainTime]
    · cases domain with
      | none => rfl
      | some d => simp [addDomainTime, h]
  · rintro d rfl hd hpos
    simp [addDomainTime, hd, not_le.mpr hpos]

/-- C7 witness: a rejected request (missing domain) returns the store intact,
and a valid request is positively acknowledged. -/
theorem c7_addDomainTime_validation_witness :
    addDomainTime [] defaultCategoryMap 0 none (some 5) = ⟨false, []⟩ ∧
      (addDomainTime [] defaultCategoryMap 0 (some "x.com") (some 5)).ok = true :=
  ⟨(c7_addDomainTime_validation [] defaultCategoryMap 0 none (some 5)).1 (Or.inl rfl),
    (c7_addDomainTime_validation [] defaultCategoryMap 0 (some "x.com") (some 5)).2
      "x.com" rfl (by decide) (by decide)⟩

/-- C10 counterexample: the claim promises preservation for every non-null
stored category, but JavaScript `entry.category = entry.category || cat`
treats the non-null empty string as falsy: a stored entry with category ""
is reclassified (here to "other") by a valid `addDomainTime` call. -/
theorem c10_counterexample :
    mapGet [("x.com", ⟨5, some "", 0⟩)] "x.com" = some ⟨5, some "", 0⟩ ∧
      (mapGet
          (addDomainTime [("x.com", ⟨5, some "", 0⟩)] defaultCategoryMap 999
            (some "x.com") (some 1000)).store "x.com").map DomainEntry.category =
        some (some "other") := by
  refine ⟨by decide, by decide⟩

/-- C10 (amended): for every `addDomainTime` request on a domain whose stored
entry has a non-null, non-empty category, the category after the call equals
its value before the call; the category is assigned (to the classification of
`https://domain`) only while it is falsy — null or empty. -/
theorem c10_category_first_write_only (store : List (String × DomainEntry))
    (catMap : List (String × List String)) (now : Int) (d : String)
    (deltaMs : Option Int) :
    (∀ e c, mapGet store d = some e → e.category = some c → c ≠ "" →
      (mapGet (addDomainTime store catMap now (some d) deltaMs).store d).map
        DomainEntry.category = some (some c)) ∧
    (∀ e, mapGet store d = some e → (e.category = none ∨ e.category = some "") →
      d ≠ "" → 0 < deltaMs.getD 0 →
      (mapGet (addDomainTime store catMap now (some d) deltaMs).store d).map
        DomainEntry.category =
          some (some (getCategoryForUrl ("https://" ++ d) catMap))) := by
  constructor
  · intro e c he hc hcne
    unfold addDomainTime
    by_cases hrej : d = "" ∨ deltaMs.getD 0 ≤ 0
    · simp only [if_pos hrej]
      simp [he, hc]
    · simp only [if_neg hrej]
      simp only [he]
      rw [mapGet_mapSet_self]
      simp [jsOrStr, hc, hcne]
  · intro e he hfalsy hd hpos
    unfold addDomainTime
    have hcond : ¬(d = "" ∨ deltaMs.getD 0 ≤ 0) := by push_neg; exact ⟨hd, hpos⟩
    simp only [if_neg hcond]
    simp only [he]
    rw [mapGet_mapSet_self]
    rcases hfalsy with h | h <;> simp [jsOrStr, h]

/-- C10 witness: a stored non-empty category ("productive") survives a valid
`addDomainTime` call, and a null category is assigned on first write. -/
theorem c10_category_first_write_only_witness :
    (mapGet
        (addDomainTime [("x.com", ⟨5, some "productive", 0⟩)] defaultCategoryMap 999
          (some "x.com") (some 1000)).store "x.com").map DomainEntry.category =
      some (some "productive") ∧
    (mapGet
        (addDomainTime [("github.com", ⟨5, none, 0⟩)] defaultCategoryMap 999
          (some "github.com") (some 1000)).store "github.com").map DomainEntry.category =
      some (some (getCategoryForUrl "https://github.com" defaultCategoryMap)) :=
  ⟨(c10_category_first_write_only [("x.com", ⟨5, some "productive", 0⟩)] defaultCategoryMap
      999 "x.com" (some 1000)).1 ⟨5, some "productive", 0⟩ "productive" (by decide) rfl
      (by decide),
    (c10_category_first_write_only [("github.com", ⟨5, none, 0⟩)] defaultCategoryMap
      999 "github.com" (some 1000)).2 ⟨5, none, 0⟩ (by decide) (Or.inl rfl) (by decide)
      (by decide)⟩

/-! ### Background tracker streak update (`handleTabChange`) -/

/-- In-memory streak state of the background tracker, src/background.js lines
17-22: `productiveSessionStart`, `productiveAccumulated`, `distractingStart`
(`none` models null). -/
structure StreakState where
  productiveSessionStart : Option Int
  productiveAccumulated : Int
  distractingStart : Option Int
deriving DecidableEq

/-- `GET_BACK_THRESHOLD`, src/background.js line 25. -/
def GET_BACK_THRESHOLD : Int := 15 * 60 * 1000

/-- The streak update performed by `handleTabChange` when it closes the
previously active tab's interval (src/background.js lines 68-89):
`delta = now - activeStart`; a productive/school interval opens the productive
session at `activeStart` if not already open, adds `delta` to the accumulator
and clears the distracting streak; a social/games/other interval clears the
productive session and back-dates the distracting streak to `now - delta` if
none is running; any other category leaves both streaks untouched. -/
def streakUpdate (cat : String) (activeStart now : Int) (st : StreakState) : StreakState :=
  let delta := now - activeStart
  if cat = "productive" ∨ cat = "school" then
    { productiveSessionStart := some (st.productiveSessionStart.getD activeStart),
      productiveAccumulated := st.productiveAccumulated + delta,
      distractingStart := none }
  else if cat = "social" ∨ cat = "games" ∨ cat = "other" then
    { productiveSessionStart := none,
      productiveAccumulated := st.productiveAccumulated,
      distractingStart := some (st.distractingStart.getD (now - delta)) }
  else st

/-- C9: closing an interval whose category is social, games or other clears
`productiveSessionStart` (the streak breaks) but leaves
`productiveAccumulated` exactly as it was — accumulated productive
milliseconds carry over across broken streaks. -/
theorem c9_accumulated_survives_break (cat : String) (activeStart now : Int)
    (st : StreakState) (h : cat = "social" ∨ cat = "games" ∨ cat = "other") :
    (streakUpdate cat activeStart now st).productiveSessionStart = none ∧
      (streakUpdate cat activeStart now st).productiveAccumulated =
        st.productiveAccumulated := by
  have hnp : ¬(cat = "productive" ∨ cat = "school") := by
    rcases h with h | h | h <;> subst h <;> decide
  unfold streakUpdate
  rw [if_neg hnp, if_pos h]
  exact ⟨rfl, rfl⟩

/-- C9 witness: a social interval closing on a state with an open productive
session and 777 ms accumulated. -/
theorem c9_accumulated_survives_break_witness :
    (streakUpdate "social" 0 1000 ⟨some 5, 777, none⟩).productiveSessionStart = none ∧
      (streakUpdate "social" 0 1000 ⟨some 5, 777, none⟩).productiveAccumulated = 777 :=
  c9_accumulated_survives_break "social" 0 1000 ⟨some 5, 777, none⟩ (Or.inl rfl)

/-! ### Threshold scheduler (`periodicChecks`) -/

/-- The descending threshold list iterated by `periodicChecks`,
src/background.js line 123: `[4h, 3h, 2h]` in milliseconds. -/
def thresholdsDesc : List Int :=
  [4 * 60 * 60 * 1000, 3 * 60 * 60 * 1000, 2 * 60 * 60 * 1000]

/-- The threshold loop of `periodicChecks` (src/background.js lines 123-130):
return the first `t` with `productiveDuration >= t && lastShown < t`
(the source `break`s after it). -/
def firstFireableThreshold (dur latch : Int) : List Int → Option Int
  | [] => none
  | t :: ts => if dur ≥ t ∧ latch < t then some t else firstFireableThreshold dur latch ts

/-- Productive-threshold branch of `periodicChecks`, src/background.js lines
117-131: the whole check runs only under `if (productiveSessionStart)`; it
computes `productiveDuration = productiveAccumulated + (now - start)`, fires
the first threshold of the descending list that is reached and above the
persisted latch, and persists that threshold as the new latch.  Returns the
broadcast `showBreak` threshold (if any) and the new
`lastShownBreakThreshold`. -/
def breakCheck (now : Int) (start : Option Int) (acc latch : Int) : Option Int × Int :=
  match start with
  | none => (none, latch)
  | some s =>
    let dur := acc + (now - s)
    match firstFireableThreshold dur latch thresholdsDesc with
    | some t => (some t, t)
    | none => (none, latch)

/-- The `resetBreakShown` message handler, src/background.js lines 213-215:
the persisted `lastShownBreakThreshold` is set back to 0. -/
def resetBreakShown (_latch : Int) : Int := 0

/-- Modelled from the spec (§4.3): the effective productive duration
`accumulatedMs + (sessionStartedAt ? now - sessionStartedAt : 0)`, which the
spec defines for every tick — including ticks with no open session, which is
where it diverges from the source's surrounding guard. -/
def specEffectiveDuration (now : Int) (start : Option Int) (acc : Int) : Int :=
  acc + (match start with | some s => now - s | none => 0)

/-- Claim-side scan: the first threshold of the descending list whose value
the duration has reached while the latch is strictly below it. -/
def claimFirstThreshold (dur latch : Int) : Option Int :=
  thresholdsDesc.find? (fun t => decide (dur ≥ t) && decide (latch < t))

theorem firstFireable_eq_find (dur latch : Int) (ts : List Int) :
    firstFireableThreshold dur latch ts =
      ts.find? (fun t => decide (dur ≥ t) && decide (latch < t)) := by
  induction ts with
  | nil => rfl
  | cons t ts ih =>
    by_cases h : dur ≥ t ∧ latch < t
    · simp [firstFireableThreshold, List.find?, h]
    · rw [Decidable.not_and_iff_or_not] at h
      rcases h with h | h <;>
        simp [firstFireableThreshold, List.find?, h, ih, Decidable.not_and_iff_or_not]

theorem firstFireable_latch_lt (dur latch : Int) (ts : List Int) (t : Int)
    (h : firstFireableThreshold dur latch ts = some t) : latch < t ∧ dur ≥ t := by
  induction ts with
  | nil => exact absurd h (by simp [firstFireableThreshold])
  | cons u ts ih =>
    unfold firstFireableThreshold at h
    by_cases hc : dur ≥ u ∧ latch < u
    · rw [if_pos hc] at h
      cases h
      exact ⟨hc.2, hc.1⟩
    · rw [if_neg hc] at h
      exact ih h

theorem breakCheck_some_fst (now s acc latch : Int) :
    (breakCheck now (some s) acc latch).1 =
      firstFireableThreshold (acc + (now - s)) latch thresholdsDesc := by
  unfold breakCheck
  cases h : firstFireableThreshold (acc + (now - s)) latch thresholdsDesc <;> simp [h]

/-- C2 counterexample: the claim quantifies over every scheduler tick and
pins firing to the effective productive duration of the spec, but the source
runs the whole check only under `if (productiveSessionStart)`.  With no open
session, 3 h accumulated and the latch reset to 0 (state reachable via a
`resetBreakShown` after the streak broke), the claim's condition selects the
3 h threshold while the code fires nothing. -/
theorem c2_counterexample :
    breakCheck 0 none (3 * 60 * 60 * 1000) 0 = (none, 0) ∧
      specEffectiveDuration 0 none (3 * 60 * 60 * 1000) = 3 * 60 * 60 * 1000 ∧
      claimFirstThreshold (specEffectiveDuration 0 none (3 * 60 * 60 * 1000)) 0 =
        some (3 * 60 * 60 * 1000) := by
  refine ⟨rfl, by decide, by decide⟩

/-- C2 (amended): `showBreak` fires only on ticks where a productive session
is open; then at most one threshold fires, exactly the first `T` of the
descending list `[4h, 3h, 2h]` with `accumulated + (now - start) ≥ T` and
latch < T`; firing sets the latch to `T`, after which no later tick can fire
`T` again (only a strictly higher threshold) until `resetBreakShown` sets the
latch back to 0 and re-arms all thresholds; a tick that fires nothing leaves
the latch unchanged. -/
theorem c2_threshold_latch (now s acc latch : Int) :
    breakCheck now none acc latch = (none, latch) ∧
      (breakCheck now (some s) acc latch).1 =
        claimFirstThreshold (acc + (now - s)) latch ∧
      (∀ t, (breakCheck now (some s) acc latch).1 = some t →
        latch < t ∧ (breakCheck now (some s) acc latch).2 = t ∧
          ∀ now2 s2 acc2, (breakCheck now2 (some s2) acc2 t).1 ≠ some t) ∧
      ((breakCheck now (some s) acc latch).1 = none →
        (breakCheck now (some s) acc latch).2 = latch) ∧
      (breakCheck now (some s) acc (resetBreakShown latch)).1 =
        claimFirstThreshold (acc + (now - s)) 0 := by
  refine ⟨rfl, ?_, ?_, ?_, ?_⟩
  · rw [breakCheck_some_fst, firstFireable_eq_find]
    rfl
  · intro t ht
    rw [breakCheck_some_fst] at ht
    obtain ⟨hlt, _⟩ := firstFireable_latch_lt _ _ _ _ ht
    refine ⟨hlt, ?_, ?_⟩
    · unfold breakCheck
      simp [ht]
    · intro now2 s2 acc2 h2
      rw [breakCheck_some_fst] at h2
      exact absurd (firstFireable_latch_lt _ _ _ _ h2).1 (lt_irrefl t)
  · intro hnone
    rw [breakCheck_some_fst] at hnone
    unfold breakCheck
    simp [hnone]
  · rw [breakCheck_some_fst, firstFireable_eq_find]
    rfl

/-- C2 witness: a tick at 2 h of open productive work with latch 0 fires the
2 h threshold and latches it; the same tick repeated against the new latch
does not re-fire. -/
theorem c2_threshold_latch_witness :
    (breakCheck (2 * 60 * 60 * 1000) (some 0) 0 0).1 = some (2 * 60 * 60 * 1000) ∧
      (breakCheck (2 * 60 * 60 * 1000) (some 0) 0 0).2 = 2 * 60 * 60 * 1000 ∧
      (breakCheck (2 * 60 * 60 * 1000 + 30000) (some 0) 0 (2 * 60 * 60 * 1000)).1 ≠
        some (2 * 60 * 60 * 1000) := by
  have hfire : (breakCheck (2 * 60 * 60 * 1000) (some 0) 0 0).1 =
      some (2 * 60 * 60 * 1000) := by decide
  have h := (c2_threshold_latch (2 * 60 * 60 * 1000) 0 0 0).2.2.1
    (2 * 60 * 60 * 1000) hfire
  exact ⟨hfire, h.2.1, h.2.2 (2 * 60 * 60 * 1000 + 30000) 0 0⟩

/-- Distraction branch of `periodicChecks`, src/background.js lines 134-141:
if a distracting streak is running and `now - distractingStart` has reached
`GET_BACK_THRESHOLD`, broadcast `getBackToWork` and clear `distractingStart`
so that a whole new streak is required before the next nudge.  Returns
whether the nudge fired and the new `distractingStart`. -/
def distractionCheck (now : Int) (ds : Option Int) : Bool × Option Int :=
  match ds with
  | none => (false, none)
  | some s => if now - s ≥ GET_BACK_THRESHOLD then (true, none) else (false, some s)

/-- C6: `getBackToWork` fires on a tick iff the distracting streak start is
set and at least 15 minutes old; firing clears the start, so the immediately
following tick (state threaded through) fires exactly when the first did not
fire and its own threshold condition holds — after a fire, only a fresh
streak can re-arm the nudge. -/
theorem c6_distraction_nudge (now now2 s : Int) :
    (distractionCheck now none).1 = false ∧
      (distractionCheck now (some s)).1 = decide (now - s ≥ GET_BACK_THRESHOLD) ∧
      ((distractionCheck now (some s)).1 = true →
        (distractionCheck now (some s)).2 = none) ∧
      (distractionCheck now2 (distractionCheck now (some s)).2).1 =
        (!decide (now - s ≥ GET_BACK_THRESHOLD) &&
          decide (now2 - s ≥ GET_BACK_THRESHOLD)) := by
  by_cases h : now - s ≥ GET_BACK_THRESHOLD
  · refine ⟨rfl, by simp [distractionCheck, h], fun _ => by simp [distractionCheck, h], ?_⟩
    simp [distractionCheck, h]
  · refine ⟨rfl, by simp [distractionCheck, h], fun hfired => ?_, ?_⟩
    · exact absurd hfired (by simp [distractionCheck, h])
    · by_cases h2 : now2 - s ≥ GET_BACK_THRESHOLD <;> simp [distractionCheck, h, h2]

/-- C6 witness: a 15-minute-old streak fires and is cleared; the next tick,
30 s later, does not re-fire. -/
theorem c6_distraction_nudge_witness :
    (distractionCheck (15 * 60 * 1000) (some 0)).1 = true ∧
      (distractionCheck (15 * 60 * 1000) (some 0)).2 = none ∧
      (distractionCheck (15 * 60 * 1000 + 30000)
        (distractionCheck (15 * 60 * 1000) (some 0)).2).1 = false := by
  have h := c6_distraction_nudge (15 * 60 * 1000) (15 * 60 * 1000 + 30000) 0
  exact ⟨by decide, h.2.2.1 (by decide), by decide⟩

/-! ### Interleaving of two `addDomainTime` read-modify-write sequences -/

/-- Progress of one in-flight `addDomainTime` request: about to issue its
`chrome.storage.local.get`, holding the map snapshot that get returned, or
finished its `chrome.storage.local.set`. -/
inductive RmwPhase
  | ready
  | readDone (snapshot : List (String × DomainEntry))
  | written
deriving DecidableEq

/-- One in-flight `addDomainTime` request (a valid domain and delta). -/
structure RmwTask where
  domain : String
  delta : Int
  phase : RmwPhase
deriving DecidableEq

/-- The shared `domainStats` store plus two in-flight requests. -/
structure RaceState where
  store : List (String × DomainEntry)
  t1 : RmwTask
  t2 : RmwTask
deriving DecidableEq

/-- The four event-loop steps the two handler invocations can interleave at
their `await` points (src/background.js lines 230 and 242): each task's
storage get (capturing the current store as its snapshot) and its storage set
(writing back the map the handler computed from that snapshot — the very map
`addDomainTime` produces).  An out-of-order or repeated step is a no-op. -/
inductive RmwOp | get1 | set1 | get2 | set2
deriving DecidableEq

def raceStep (catMap : List (String × List String)) (now : Int) (s : RaceState) :
    RmwOp → RaceState
  | .get1 =>
    match s.t1.phase with
    | .ready => { s with t1 := { s.t1 with phase := .readDone s.store } }
    | _ => s
  | .set1 =>
    match s.t1.phase with
    | .readDone snap =>
      { s with
        store := (addDomainTime snap catMap now (some s.t1.domain) (some s.t1.delta)).store,
        t1 := { s.t1 with phase := .written } }
    | _ => s
  | .get2 =>
    match s.t2.phase with
    | .ready => { s with t2 := { s.t2 with phase := .readDone s.store } }
    | _ => s
  | .set2 =>
    match s.t2.phase with
    | .readDone snap =>
      { s with
        store := (addDomainTime snap catMap now (some s.t2.domain) (some s.t2.delta)).store,
        t2 := { s.t2 with phase := .written } }
    | _ => s

def raceRun (catMap : List (String × List String)) (now : Int) :
    RaceState → List RmwOp → RaceState
  | s, [] => s
  | s, op :: ops => raceRun catMap now (raceStep catMap now s op) ops

/-- C3 failing input: two valid `addDomainTime` requests for the same domain
(prior time 100, deltas 10 and 20) whose storage reads both complete before
either write.  The serialized order get1-set1-get2-set2 sums both deltas
(130), but the overlapping order get1-get2-set1-set2 — reachable because the
handler suspends at its `await`s with no per-key serialization — loses the
first delta and persists 120, both tasks having completed. -/
theorem c3_code_evaluation :
    (mapGet
        (raceRun defaultCategoryMap 50
          ⟨[("x.com", ⟨100, some "other", 0⟩)], ⟨"x.com", 10, .ready⟩,
            ⟨"x.com", 20, .ready⟩⟩
          [.get1, .set1, .get2, .set2]).store "x.com").map DomainEntry.time =
      some 130 ∧
    (mapGet
        (raceRun defaultCategoryMap 50
          ⟨[("x.com", ⟨100, some "other", 0⟩)], ⟨"x.com", 10, .ready⟩,
            ⟨"x.com", 20, .ready⟩⟩
          [.get1, .get2, .set1, .set2]).store "x.com").map DomainEntry.time =
      some 120 ∧
    (raceRun defaultCategoryMap 50
        ⟨[("x.com", ⟨100, some "other", 0⟩)], ⟨"x.com", 10, .ready⟩,
          ⟨"x.com", 20, .ready⟩⟩
        [.get1, .get2, .set1, .set2]).t1.phase = .written ∧
    (raceRun defaultCategoryMap 50
        ⟨[("x.com", ⟨100, some "other", 0⟩)], ⟨"x.com", 10, .ready⟩,
          ⟨"x.com", 20, .ready⟩⟩
        [.get1, .get2, .set1, .set2]).t2.phase = .written := by
  refine ⟨by decide, by decide, by decide, by decide⟩

/-! ### Content-script break lifecycle (`startBreak`) -/

/-- Kind of a pending `setInterval` created by `startBreak`: the 3-2-1
pre-start countdown (`preInterval`), the active break countdown (`interval`),
or the 3-2-1 pre-end countdown (`endTimer`). -/
inductive TimerKind | preTick | activeTick | endTick
deriving DecidableEq

/-- A pending interval: its id and the `startBreak` invocation (generation)
whose closure its callback runs in. -/
structure Timer where
  id : Nat
  gen : Nat
  kind : TimerKind
deriving DecidableEq

/-- Closure variables of one `startBreak` invocation: `preCount`, the
requested `durationMs`, `remaining`, `endCount`. -/
structure BreakInst where
  preCount : Int
  durationMs : Int
  remaining : Int
  endCount : Int
deriving DecidableEq

/-- A message sent via `sendMessageSafe`, tagged with the sending
invocation's generation. -/
structure SentMsg where
  gen : Nat
  action : String
deriving DecidableEq

/-- The page context: fresh timer/generation counters, pending intervals, the
generation owning the `#bb-break-banner` node currently in the shadow DOM,
the closure state of every `startBreak` invocation so far, and the messages
sent to the background. -/
structure PageState where
  nextTimerId : Nat
  nextGen : Nat
  timers : List Timer
  banner : Option Nat
  insts : List (Nat × BreakInst)
  sent : List SentMsg
deriving DecidableEq

def initialPage : PageState := ⟨0, 0, [], none, [], []⟩

def instGet : List (Nat × BreakInst) → Nat → Option BreakInst
  | [], _ => none
  | a :: rest, g => if a.1 == g then some a.2 else instGet rest g

def instSet : List (Nat × BreakInst) → Nat → BreakInst → List (Nat × BreakInst)
  | [], g, v => [(g, v)]
  | a :: rest, g, v => if a.1 == g then (g, v) :: rest else a :: instSet rest g v

/-- `clearInterval`, applied to one pending interval id. -/
def removeTimer (ts : List Timer) (tid : Nat) : List Timer :=
  ts.filter (fun t => t.id != tid)

/-- `removeExistingBanner`, content script lines 598-601: remove the old
`#bb-break-banner` DOM node — and nothing else.  No `clearInterval` is
called, so every pending interval survives. -/
def removeExistingBanner (s : PageState) : PageState := { s with banner := none }

/-- `Math.max(0, Math.ceil(d / 1000))` (content script line 519), for the
nonnegative durations the break UI passes. -/
def ceilDiv1000 (d : Int) : Int := max 0 ((d + 999) / 1000)

/-- `startBreak(durationMs)`, content script lines 465-493 (entry portion):
`removeOverlay()` (overlay not modelled), `removeExistingBanner()`, create a
fresh banner, and start `preInterval` with `preCount = 3`.  Nothing cancels
timers of earlier invocations. -/
def startBreak (durationMs : Int) (s : PageState) : PageState :=
  let s0 := removeExistingBanner s
  let g := s0.nextGen
  { s0 with
    nextGen := g + 1
    banner := some g
    insts := s0.insts ++ [(g, ⟨3, durationMs, 0, 3⟩)]
    timers := s0.timers ++ [⟨s0.nextTimerId, g, .preTick⟩]
    nextTimerId := s0.nextTimerId + 1 }

/-- One firing of a pending interval callback (content script lines 488-560):
the pre-start tick decrements `preCount` and on reaching 0 clears
`preInterval`, rewrites its captured banner, sends `startBreakGlobal`,
initializes `remaining` and starts the active countdown; the active tick
decrements `remaining` and on reaching 0 clears `interval` and starts the
pre-end countdown; the pre-end tick decrements `endCount` and on reaching 0
clears `endTimer`, sends `endBreakGlobal` and (after a display delay) removes
its captured banner if it is still the one in the DOM.  No callback checks
whether its invocation has been superseded. -/
def fireTimer (s : PageState) (tid : Nat) : PageState :=
  match s.timers.find? (fun t => t.id == tid) with
  | none => s
  | some t =>
    match instGet s.insts t.gen with
    | none => s
    | some inst =>
      match t.kind with
      | .preTick =>
        let pre := inst.preCount - 1
        if pre ≤ 0 then
          { s with
            timers := removeTimer s.timers tid ++ [⟨s.nextTimerId, t.gen, .activeTick⟩]
            nextTimerId := s.nextTimerId + 1
            insts := instSet s.insts t.gen
              { inst with preCount := pre, remaining := ceilDiv1000 inst.durationMs }
            sent := s.sent ++ [⟨t.gen, "startBreakGlobal"⟩] }
        else { s with insts := instSet s.insts t.gen { inst with preCount := pre } }
      | .activeTick =>
        let rem := inst.remaining - 1
        if rem ≤ 0 then
          { s with
            timers := removeTimer s.timers tid ++ [⟨s.nextTimerId, t.gen, .endTick⟩]
            nextTimerId := s.nextTimerId + 1
            insts := instSet s.insts t.gen { inst with remaining := rem, endCount := 3 } }
        else { s with insts := instSet s.insts t.gen { inst with remaining := rem } }
      | .endTick =>
        let ec := inst.endCount - 1
        if ec ≤ 0 then
          { s with
            timers := removeTimer s.timers tid
            insts := instSet s.insts t.gen { inst with endCount := ec }
            sent := s.sent ++ [⟨t.gen, "endBreakGlobal"⟩]
            banner := if s.banner == some t.gen then none else s.banner }
        else { s with insts := instSet s.insts t.gen { inst with endCount := ec } }

/-- C1 failing input: `startBreak(600000)` requested while a prior
`startBreak(600000)`'s pre-start interval is still pending.  The superseded
generation-0 interval is still scheduled next to generation 1's (two
countdowns at once), a stale generation-0 tick still fires and mutates its
closure, and three stale ticks make generation 0 broadcast
`startBreakGlobal` while generation 1 owns the banner — nothing was
cancelled and no generation guard exists. -/
theorem c1_code_evaluation :
    (⟨0, 0, .preTick⟩ : Timer) ∈ (startBreak 600000 (startBreak 600000 initialPage)).timers ∧
    (⟨1, 1, .preTick⟩ : Timer) ∈ (startBreak 600000 (startBreak 600000 initialPage)).timers ∧
    (startBreak 600000 (startBreak 600000 initialPage)).banner = some 1 ∧
    instGet (fireTimer (startBreak 600000 (startBreak 600000 initialPage)) 0).insts 0 =
      some ⟨2, 600000, 0, 3⟩ ∧
    (⟨0, "startBreakGlobal"⟩ : SentMsg) ∈
      (fireTimer (fireTimer (fireTimer
        (startBreak 600000 (startBreak 600000 initialPage)) 0) 0) 0).sent ∧
    (fireTimer (fireTimer (fireTimer
        (startBreak 600000 (startBreak 600000 initialPage)) 0) 0) 0).banner = some 1 := by
  refine ⟨by decide, by decide, by decide, by decide, by decide, by decide⟩

end Blink
